import Mathlib

/-!
# Verification of the video-player wrapper and its modal host

Shallow embedding of `src/components/VideoPlayer.tsx` (the player wrapper)
and of the page component gating it behind a modal dialog. The wrapper is a
React component: its mount effect (dependency list `[]`) constructs a
video.js widget against the container element, adds the playback-rate and
quality controls, registers a ready callback, and returns a cleanup that
disposes the widget; a second effect (dependency list `[videoUrl, isReady]`)
re-points the widget's source. We model the component as a step function on
explicit state, driven by lifecycle and UI events, emitting the list of
widget-API calls each event causes.
-/

/-- The `hls` sub-options object of the construction config (line 42-44). -/
structure HlsOptions where
  overrideNative : Bool
deriving DecidableEq, Repr

/-- The `html5` options object of the construction config (line 41-45). -/
structure Html5Options where
  hls : HlsOptions
deriving DecidableEq, Repr

/-- The configuration object passed to the `videojs` constructor (lines 34-46). -/
structure PlayerOptions where
  controls : Bool
  autoplay : Bool
  preload : String
  responsive : Bool
  fluid : Bool
  html5 : Html5Options
deriving DecidableEq, Repr

/-- The literal options object of `VideoPlayer.tsx` lines 34-46. -/
def playerOptions : PlayerOptions :=
  { controls := true
    autoplay := true
    preload := "auto"
    responsive := true
    fluid := true
    html5 := { hls := { overrideNative := true } } }

/-- `const playbackRates = [0.5, 1, 1.5, 2]` (line 58). -/
def playbackRates : List ℚ := [mkRat 1 2, 1, mkRat 3 2, 2]

/-- The MIME hint used for the HLS source (line 96). -/
def hlsMime : String := "application/x-mpegURL"

/-- Observable calls issued by the wrapper into the widget (and console).
`log` is in the vocabulary so that the absence of logging is expressible;
`VideoPlayer.tsx` never emits it. -/
inductive WCall where
  /-- `videojs(videoRef.current, {...})` (line 34) -/
  | construct (opts : PlayerOptions)
  /-- `player.controlBar.addChild('button', { text })` (lines 52, 71) -/
  | addButton (text : String)
  /-- creation of one rate menu item with its click listener (lines 59-65) -/
  | createRateItem (r : ℚ)
  /-- `player.playbackRate(rate)` (line 64) -/
  | setRate (r : ℚ)
  /-- `player.src({ src, type })` (lines 94-97) -/
  | setSrc (src : String) (mime : String)
  /-- `player.dispose()` (line 85) -/
  | dispose
  /-- console logging (never emitted by `VideoPlayer.tsx`) -/
  | log (msg : String)
deriving DecidableEq, Repr

/-- Events driving the wrapper: React lifecycle transitions, the widget's
ready and error events, and UI clicks. `mount` carries the `videoUrl` prop,
whether the container ref is non-null when the effect runs (line 31), and
whether `player.qualityLevels` reports a nonempty list (line 70). -/
inductive Ev where
  | mount (url : String) (containerPresent : Bool) (qualityNonempty : Bool)
  | ready
  | urlChange (url : String)
  | clickRate (r : ℚ)
  | widgetError
  | unmount
deriving DecidableEq, Repr

/-- Wrapper state: whether the component is mounted, whether `playerRef.current`
is non-null, the `isReady` flag, the current `videoUrl` prop, and the source
the widget instance currently holds (none until the first `src` call). -/
structure VPState where
  mounted : Bool
  playerAlive : Bool
  isReady : Bool
  videoUrl : String
  widgetSrc : Option (String × String)
deriving DecidableEq, Repr

def initState : VPState :=
  { mounted := false, playerAlive := false, isReady := false
    videoUrl := "", widgetSrc := none }

/-- Calls emitted by the body of the mount effect when the container is
present (lines 34-80): construct the widget, add the `1x` button, create the
four rate menu items with their listeners, and, when quality levels are
nonempty, add the quality button. -/
def mountCalls (qualityNonempty : Bool) : List WCall :=
  [WCall.construct playerOptions, WCall.addButton "1x"]
    ++ playbackRates.map WCall.createRateItem
    ++ (if qualityNonempty then [WCall.addButton "Quality"] else [])

/-- One step of the wrapper: the state transition and the widget calls the
event causes, read off `VideoPlayer.tsx`.

* `mount`: the mount effect (lines 29-89). `if (!videoRef.current) return`
  (line 31) makes a null container a silent no-op that registers no cleanup.
  The source effect also runs on first render but its guard
  `playerRef.current && isReady` (line 93) fails since `isReady` is false.
* `ready`: `player.ready` sets `isReady` (lines 78-80); the re-render runs
  the source effect, whose guard now passes, issuing the `src` call.
* `urlChange`: the source effect re-runs on a `videoUrl` change (lines
  92-99); before ready the guard drops the call (guarded, not queued).
* `clickRate`: the menu-item listener calls `player.playbackRate(rate)`
  (lines 63-65); listeners exist only while the widget is alive.
* `widgetError`: no error handler is registered anywhere in the component,
  so a widget error causes no wrapper behavior.
* `unmount`: the cleanup (lines 83-88) disposes the widget if
  `playerRef.current` is non-null; with a null container no cleanup was
  registered, which is equivalent to emitting nothing. -/
def step (s : VPState) : Ev → VPState × List WCall
  | Ev.mount url present quality =>
      if present then
        ({ mounted := true, playerAlive := true, isReady := false
           videoUrl := url, widgetSrc := none },
         mountCalls quality)
      else
        ({ mounted := true, playerAlive := false, isReady := false
           videoUrl := url, widgetSrc := s.widgetSrc }, [])
  | Ev.ready =>
      if s.playerAlive && !s.isReady then
        ({ s with isReady := true, widgetSrc := some (s.videoUrl, hlsMime) },
         [WCall.setSrc s.videoUrl hlsMime])
      else (s, [])
  | Ev.urlChange url =>
      if s.playerAlive && s.isReady then
        ({ s with videoUrl := url, widgetSrc := some (url, hlsMime) },
         [WCall.setSrc url hlsMime])
      else ({ s with videoUrl := url }, [])
  | Ev.clickRate r =>
      if s.playerAlive then (s, [WCall.setRate r]) else (s, [])
  | Ev.widgetError => (s, [])
  | Ev.unmount =>
      if s.playerAlive then
        ({ initState with widgetSrc := none }, [WCall.dispose])
      else ({ initState with widgetSrc := s.widgetSrc }, [])

/-- Run a list of events from a state, accumulating the emitted calls. -/
def runA (s : VPState) : List Ev → VPState × List WCall
  | [] => (s, [])
  | e :: es =>
      ((runA (step s e).1 es).1, (step s e).2 ++ (runA (step s e).1 es).2)

/-- Calls emitted by an event list starting from the initial state. -/
def runCalls (es : List Ev) : List WCall := (runA initState es).2

/-- State after an event list starting from the initial state. -/
def runState (es : List Ev) : VPState := (runA initState es).1

/-- Well-formed event lists: `mount` fires only while unmounted, every other
event only while mounted (React cannot deliver effects or clicks to an
unmounted component, and cannot mount a mounted one). -/
def wfFrom : Bool → List Ev → Bool
  | _, [] => true
  | false, Ev.mount _ _ _ :: es => wfFrom true es
  | false, _ :: _ => false
  | true, Ev.mount _ _ _ :: _ => false
  | true, Ev.unmount :: es => wfFrom false es
  | true, _ :: es => wfFrom true es

/-- Every `mount` event in the list has the container present. In the real
tree this always holds: the ref is attached to the `<video>` element rendered
by the same component, so React populates it before the effect runs. -/
def mountsPresent : List Ev → Bool
  | [] => true
  | Ev.mount _ present _ :: es => present && mountsPresent es
  | _ :: es => mountsPresent es

/-- Project a widget call to its lifecycle kind: `true` for a construction,
`false` for a disposal, `none` for everything else. -/
def lcCall : WCall → Option Bool
  | WCall.construct _ => some true
  | WCall.dispose => some false
  | _ => none

/-- Project an event to its lifecycle kind: `true` for a mount, `false` for
an unmount, `none` for everything else. -/
def lcEv : Ev → Option Bool
  | Ev.mount _ _ _ => some true
  | Ev.unmount => some false
  | _ => none

/-- `alternatesFrom e bs` holds when `bs` strictly alternates, starting with
the expected value `e`. -/
def alternatesFrom : Bool → List Bool → Bool
  | _, [] => true
  | e, b :: bs => (b == e) && alternatesFrom (!e) bs

/-- Recognizer for mount events. -/
def isMountEv : Ev → Bool
  | Ev.mount _ _ _ => true
  | _ => false

/-- Recognizer for unmount events. -/
def isUnmountEv : Ev → Bool
  | Ev.unmount => true
  | _ => false

theorem mountCalls_lcCall (q : Bool) :
    (mountCalls q).filterMap lcCall = [true] := by
  cases q <;> decide

/-- The lifecycle projection of the call trace equals the lifecycle
projection of the event list: each mount emits exactly one construction,
each unmount exactly one disposal, and no other event emits either. The
state is quantified with `playerAlive = mounted`, the invariant that holds
whenever every mount found its container. -/
theorem runA_lcCall (es : List Ev) :
    ∀ (m ir : Bool) (vu : String) (ws : Option (String × String)),
    wfFrom m es = true →
    mountsPresent es = true →
    ((runA ⟨m, m, ir, vu, ws⟩ es).2.filterMap lcCall) = es.filterMap lcEv := by
  induction es with
  | nil => intro m ir vu ws _ _; simp [runA]
  | cons e es ih =>
    intro m ir vu ws hwf hp
    cases e with
    | mount url present quality =>
      cases m
      · simp only [wfFrom] at hwf
        simp only [mountsPresent, Bool.and_eq_true] at hp
        obtain ⟨hpr, hp'⟩ := hp
        subst hpr
        simp only [runA, step, if_true, List.filterMap_append, lcEv,
          List.filterMap_cons, mountCalls_lcCall]
        simpa using ih true false url none hwf hp'
      · simp [wfFrom] at hwf
    | ready =>
      cases m
      · simp [wfFrom] at hwf
      · simp only [wfFrom] at hwf
        simp only [mountsPresent] at hp
        cases ir
        · simpa [runA, step, lcEv, lcCall] using
            ih true true vu (some (vu, hlsMime)) hwf hp
        · simpa [runA, step, lcEv] using ih true true vu ws hwf hp
    | urlChange url =>
      cases m
      · simp [wfFrom] at hwf
      · simp only [wfFrom] at hwf
        simp only [mountsPresent] at hp
        cases ir
        · simpa [runA, step, lcEv] using ih true false url ws hwf hp
        · simpa [runA, step, lcEv, lcCall] using
            ih true true url (some (url, hlsMime)) hwf hp
    | clickRate r =>
      cases m
      · simp [wfFrom] at hwf
      · simp only [wfFrom] at hwf
        simp only [mountsPresent] at hp
        simpa [runA, step, lcEv, lcCall] using ih true ir vu ws hwf hp
    | widgetError =>
      cases m
      · simp [wfFrom] at hwf
      · simp only [wfFrom] at hwf
        simp only [mountsPresent] at hp
        simpa [runA, step, lcEv] using ih true ir vu ws hwf hp
    | unmount =>
      cases m
      · simp [wfFrom] at hwf
      · simp only [wfFrom] at hwf
        simp only [mountsPresent] at hp
        simpa [runA, step, lcEv, lcCall, initState] using
          ih false false "" none hwf hp

/-- Well-formedness forces the lifecycle projection of the event list to
alternate, starting with the kind expected from the current mount state. -/
theorem wfFrom_alternates (es : List Ev) : ∀ m : Bool,
    wfFrom m es = true → alternatesFrom (!m) (es.filterMap lcEv) = true := by
  induction es with
  | nil => intro m _; simp [alternatesFrom]
  | cons e es ih =>
    intro m hwf
    cases e with
    | mount url present quality =>
      cases m
      · simp only [wfFrom] at hwf
        simp only [List.filterMap_cons, lcEv, alternatesFrom, Bool.not_false]
        simpa using ih true hwf
      · simp [wfFrom] at hwf
    | unmount =>
      cases m
      · simp [wfFrom] at hwf
      · simp only [wfFrom] at hwf
        simp only [List.filterMap_cons, lcEv, alternatesFrom, Bool.not_true]
        simpa using ih false hwf
    | ready =>
      cases m
      · simp [wfFrom] at hwf
      · simp only [wfFrom] at hwf
        simpa [lcEv] using ih true hwf
    | urlChange url =>
      cases m
      · simp [wfFrom] at hwf
      · simp only [wfFrom] at hwf
        simpa [lcEv] using ih true hwf
    | clickRate r =>
      cases m
      · simp [wfFrom] at hwf
      · simp only [wfFrom] at hwf
        simpa [lcEv] using ih true hwf
    | widgetError =>
      cases m
      · simp [wfFrom] at hwf
      · simp only [wfFrom] at hwf
        simpa [lcEv] using ih true hwf

/-- Counting mounts through the lifecycle projection. -/
theorem filterMap_lcEv_count_true (es : List Ev) :
    (es.filterMap lcEv).count true = es.countP isMountEv := by
  induction es with
  | nil => rfl
  | cons e es ih =>
    cases e <;>
      simp [lcEv, isMountEv, List.filterMap_cons, List.countP_cons, ih,
        List.count_cons]

/-- Counting unmounts through the lifecycle projection. -/
theorem filterMap_lcEv_count_false (es : List Ev) :
    (es.filterMap lcEv).count false = es.countP isUnmountEv := by
  induction es with
  | nil => rfl
  | cons e es ih =>
    cases e <;>
      simp [lcEv, isUnmountEv, List.filterMap_cons, List.countP_cons, ih,
        List.count_cons]

/-- Recognizer for construction calls. -/
def isConstructCall : WCall → Bool
  | WCall.construct _ => true
  | _ => false

/-- Recognizer for source-setting calls. -/
def isSetSrcCall : WCall → Bool
  | WCall.setSrc _ _ => true
  | _ => false

/-- Recognizer for logging calls. -/
def isLogCall : WCall → Bool
  | WCall.log _ => true
  | _ => false

/-- Scanner: every rate-setting call in the list is preceded by a
construction call (or one was already seen before the list). -/
def rateAfterConstruct : Bool → List WCall → Bool
  | _, [] => true
  | _, WCall.construct _ :: cs => rateAfterConstruct true cs
  | seen, WCall.setRate _ :: cs => seen && rateAfterConstruct seen cs
  | seen, _ :: cs => rateAfterConstruct seen cs

theorem rateAfterConstruct_append (xs ys : List WCall) : ∀ seen : Bool,
    rateAfterConstruct seen (xs ++ ys)
      = (rateAfterConstruct seen xs
          && rateAfterConstruct (seen || xs.any isConstructCall) ys) := by
  induction xs with
  | nil => intro seen; simp [rateAfterConstruct]
  | cons c xs ih =>
    intro seen
    cases c <;>
      simp [rateAfterConstruct, isConstructCall, ih, Bool.and_assoc]

theorem rateAfterConstruct_mountCalls (seen q : Bool) :
    rateAfterConstruct seen (mountCalls q) = true := by
  cases seen <;> cases q <;> decide

theorem mountCalls_any_construct (q : Bool) :
    (mountCalls q).any isConstructCall = true := by
  cases q <;> decide

/-- In every run from an unmounted-or-invariant state, a rate-setting call
can only occur after a construction call: the click listeners are created by
the mount effect, after `videojs(...)` has returned. -/
theorem rateAfterConstruct_runA (es : List Ev) :
    ∀ (m ir seen : Bool) (vu : String) (ws : Option (String × String)),
    wfFrom m es = true →
    mountsPresent es = true →
    (m = true → seen = true) →
    rateAfterConstruct seen (runA ⟨m, m, ir, vu, ws⟩ es).2 = true := by
  induction es with
  | nil => intro m ir seen vu ws _ _ _; simp [runA, rateAfterConstruct]
  | cons e es ih =>
    intro m ir seen vu ws hwf hp hseen
    cases e with
    | mount url present quality =>
      cases m
      · simp only [wfFrom] at hwf
        simp only [mountsPresent, Bool.and_eq_true] at hp
        obtain ⟨hpr, hp'⟩ := hp
        subst hpr
        simp only [runA, step, if_true, rateAfterConstruct_append,
          rateAfterConstruct_mountCalls, mountCalls_any_construct,
          Bool.or_true, Bool.true_and]
        exact ih true false true url none hwf hp' (fun _ => rfl)
      · simp [wfFrom] at hwf
    | ready =>
      cases m
      · simp [wfFrom] at hwf
      · simp only [wfFrom] at hwf
        simp only [mountsPresent] at hp
        cases ir
        · simpa [runA, step, rateAfterConstruct] using
            ih true true seen vu (some (vu, hlsMime)) hwf hp hseen
        · simpa [runA, step, rateAfterConstruct] using
            ih true true seen vu ws hwf hp hseen
    | urlChange url =>
      cases m
      · simp [wfFrom] at hwf
      · simp only [wfFrom] at hwf
        simp only [mountsPresent] at hp
        cases ir
        · simpa [runA, step, rateAfterConstruct] using
            ih true false seen url ws hwf hp hseen
        · simpa [runA, step, rateAfterConstruct] using
            ih true true seen url (some (url, hlsMime)) hwf hp hseen
    | clickRate r =>
      cases m
      · simp [wfFrom] at hwf
      · simp only [wfFrom] at hwf
        simp only [mountsPresent] at hp
        have hs : seen = true := hseen rfl
        subst hs
        simpa [runA, step, rateAfterConstruct] using
          ih true ir true vu ws hwf hp (fun _ => rfl)
    | widgetError =>
      cases m
      · simp [wfFrom] at hwf
      · simp only [wfFrom] at hwf
        simp only [mountsPresent] at hp
        simpa [runA, step] using ih true ir seen vu ws hwf hp hseen
    | unmount =>
      cases m
      · simp [wfFrom] at hwf
      · simp only [wfFrom] at hwf
        simp only [mountsPresent] at hp
        simpa [runA, step, rateAfterConstruct, initState] using
          ih false false seen "" none hwf hp (fun h => Bool.noConfusion h)

/-- Without a `ready` event the source effect never fires: no `src` call is
emitted, the ready flag stays false, and the widget holds no source. -/
theorem no_ready_no_setSrc (es : List Ev) :
    ∀ (m pa : Bool) (vu : String),
    Ev.ready ∉ es →
    (runA ⟨m, pa, false, vu, none⟩ es).2.all (fun c => !(isSetSrcCall c)) = true
    ∧ (runA ⟨m, pa, false, vu, none⟩ es).1.isReady = false
    ∧ (runA ⟨m, pa, false, vu, none⟩ es).1.widgetSrc = none := by
  induction es with
  | nil => intro m pa vu _; simp [runA]
  | cons e es ih =>
    intro m pa vu hnr
    have hnr' : Ev.ready ∉ es := fun h => hnr (List.mem_cons_of_mem _ h)
    have hne : e ≠ Ev.ready := fun h => hnr (h ▸ List.mem_cons_self _ _)
    cases e with
    | mount url present quality =>
      cases present
      · simpa [runA, step] using ih true false url hnr'
      · have hmc : ∀ q : Bool,
            (mountCalls q).all (fun c => !(isSetSrcCall c)) = true := by
          intro q; cases q <;> decide
        simpa [runA, step, List.all_append, hmc] using
          ih true true url hnr'
    | ready => exact absurd rfl hne
    | urlChange url =>
      simpa [runA, step] using ih m pa url hnr'
    | clickRate r =>
      cases pa
      · simpa [runA, step] using ih m false vu hnr'
      · simpa [runA, step, isSetSrcCall] using ih m true vu hnr'
    | widgetError =>
      simpa [runA, step] using ih m pa vu hnr'
    | unmount =>
      cases pa
      · simpa [runA, step, initState] using ih false false "" hnr'
      · simpa [runA, step, isSetSrcCall, initState] using
          ih false false "" hnr'

/-- Extract the options object of a construction call. -/
def constructOpts : WCall → Option PlayerOptions
  | WCall.construct opts => some opts
  | _ => none

/-- State of the Home page component (`app/page.tsx`): the single
`isOpen` boolean, `useState(false)`. -/
structure HomeState where
  isOpen : Bool
deriving DecidableEq, Repr

/-- Events of the Home page: the call-to-action click
(`onClick` setting the state to true), the player's close callback
(`onClose` setting it to false), and the dialog's `onOpenChange`. -/
inductive HEv where
  | startClick
  | playerClose
  | dialogChange (b : Bool)
deriving DecidableEq, Repr

def homeInit : HomeState := { isOpen := false }

def homeStep (_s : HomeState) : HEv → HomeState
  | HEv.startClick => { isOpen := true }
  | HEv.playerClose => { isOpen := false }
  | HEv.dialogChange b => { isOpen := b }

def homeRun (es : List HEv) : HomeState := es.foldl homeStep homeInit

/-- Number of mounted player wrappers the Home page renders: the player sits
inside the content of a dialog whose `open` prop is `isOpen`, and the dialog
mounts its content exactly while open. There is a single dialog with a
single player inside. -/
def mountedPlayers (s : HomeState) : Nat := if s.isOpen then 1 else 0

/-- Calls observable during the close flow of the modal-hosted player. -/
inductive SysCall where
  | onCloseCb
  | disposeWidget
  | removeContainer
deriving DecidableEq, Repr

/-- Combined state of the modal host and the mounted wrapper. -/
structure SysState where
  isOpen : Bool
  playerAlive : Bool
deriving DecidableEq, Repr

/-- Modelled from the spec: the user-activated close action. The component
carrying the Close button (`EnhancedVideoPlayer`) is not part of the source
snapshot; per the spec, NotifyClose invokes the externally supplied callback
(wired by the Home page to set the open flag false), the modal host then
unmounts the wrapper, and the wrapper's teardown disposes the widget before
the container element is removed from the document. -/
def closeAction (s : SysState) : SysState × List SysCall :=
  if s.isOpen then
    ({ isOpen := false, playerAlive := false },
     [SysCall.onCloseCb]
       ++ (if s.playerAlive then [SysCall.disposeWidget] else [])
       ++ [SysCall.removeContainer])
  else (s, [])

/-- The quality labels offered by the resolution selector. -/
def qualityLabels : List String := ["auto", "1080", "720", "480", "360"]

/-- UI-selection state of the quality selector. -/
structure QualityState where
  selectedLabel : String
deriving DecidableEq, Repr

/-- Modelled from the spec: `SetQualityLabel` of the player wrapper (the
resolution dropdown of `EnhancedVideoPlayer`, which is not part of the
source snapshot). Per the spec the label is stored as UI-selection state
only; no call into the widget's adaptive-bitrate or track-selection controls
is made, and the rest of the player state is untouched. -/
def setQualityLabel (p : VPState) (_q : QualityState) (label : String) :
    (VPState × QualityState) × List WCall :=
  ((p, { selectedLabel := label }), [])

/-- C1: in every well-formed mount/unmount event sequence of the player
wrapper (container present at each mount), each mount issues exactly one
widget construction call and each unmount exactly one disposal call — the
lifecycle projection of the call trace is exactly the mount/unmount
projection of the event list — the two strictly alternate starting with a
construction, and no other event (in particular no prop change) emits
either, so construction is tied to mount only. -/
theorem construct_dispose_alternate (es : List Ev)
    (hwf : wfFrom false es = true) (hp : mountsPresent es = true) :
    (runCalls es).filterMap lcCall = es.filterMap lcEv
    ∧ alternatesFrom true ((runCalls es).filterMap lcCall) = true
    ∧ ((runCalls es).filterMap lcCall).count true = es.countP isMountEv
    ∧ ((runCalls es).filterMap lcCall).count false = es.countP isUnmountEv := by
  have h : (runCalls es).filterMap lcCall = es.filterMap lcEv :=
    runA_lcCall es false false "" none hwf hp
  have h2 := wfFrom_alternates es false hwf
  refine ⟨h, ?_, ?_, ?_⟩
  · rw [h]; simpa using h2
  · rw [h, filterMap_lcEv_count_true]
  · rw [h, filterMap_lcEv_count_false]

theorem construct_dispose_alternate_witness :
    ((runCalls [Ev.mount "a" true false, Ev.unmount, Ev.mount "a" true true]).filterMap lcCall
      = [Ev.mount "a" true false, Ev.unmount, Ev.mount "a" true true].filterMap lcEv)
    ∧ alternatesFrom true ((runCalls [Ev.mount "a" true false, Ev.unmount,
        Ev.mount "a" true true]).filterMap lcCall) = true
    ∧ ((runCalls [Ev.mount "a" true false, Ev.unmount,
        Ev.mount "a" true true]).filterMap lcCall).count true
      = [Ev.mount "a" true false, Ev.unmount, Ev.mount "a" true true].countP isMountEv
    ∧ ((runCalls [Ev.mount "a" true false, Ev.unmount,
        Ev.mount "a" true true]).filterMap lcCall).count false
      = [Ev.mount "a" true false, Ev.unmount, Ev.mount "a" true true].countP isUnmountEv :=
  construct_dispose_alternate _ (by decide) (by decide)

/-- C2: clicking the menu item for any rate in {0.5, 1, 1.5, 2} while the
widget is alive issues exactly the single call `playbackRate(rate)` with
that exact value — the emitted call list is `[setRate r]`, so there is no
other rate-setting call (nor any other call) in between. -/
theorem click_rate_single_call (s : VPState) (r : ℚ)
    (hr : r ∈ playbackRates) (hpa : s.playerAlive = true) :
    (step s (Ev.clickRate r)).2 = [WCall.setRate r] := by
  simp [step, hpa]

theorem click_rate_single_call_witness :
    (step (runState [Ev.mount "u" true false]) (Ev.clickRate (mkRat 1 2))).2
      = [WCall.setRate (mkRat 1 2)] :=
  click_rate_single_call _ _ (by decide) (by decide)

/-- C3: `SetSource` is valid only after the ready flag is true. In any run
containing no ready event, no `src` call is ever emitted and the widget
holds no source (the guard drops the call, nothing is queued); a url change
in a state with the ready flag false is a pure no-op apart from storing the
new prop; and from a state with the widget alive and ready, a url change
issues exactly the `src` call re-pointing the widget at the new source. -/
theorem set_source_guarded_by_ready (es : List Ev) (u : String)
    (s₁ s₂ : VPState) (hnr : Ev.ready ∉ es)
    (h₁ : s₁.isReady = false)
    (hpa : s₂.playerAlive = true) (hir : s₂.isReady = true) :
    (runCalls es).all (fun c => !(isSetSrcCall c)) = true
    ∧ (runState es).isReady = false
    ∧ (runState es).widgetSrc = none
    ∧ step s₁ (Ev.urlChange u) = ({ s₁ with videoUrl := u }, [])
    ∧ (step s₂ (Ev.urlChange u)).2 = [WCall.setSrc u hlsMime]
    ∧ (step s₂ (Ev.urlChange u)).1.widgetSrc = some (u, hlsMime) := by
  obtain ⟨c1, c2, c3⟩ := no_ready_no_setSrc es false false "" hnr
  exact ⟨c1, c2, c3, by simp [step, h₁], by simp [step, hpa, hir],
    by simp [step, hpa, hir]⟩

theorem set_source_guarded_by_ready_witness :
    ((runCalls [Ev.mount "a" true false, Ev.urlChange "b"]).all
      (fun c => !(isSetSrcCall c)) = true)
    ∧ (runState [Ev.mount "a" true false, Ev.urlChange "b"]).isReady = false
    ∧ (runState [Ev.mount "a" true false, Ev.urlChange "b"]).widgetSrc = none
    ∧ step (runState [Ev.mount "a" true false]) (Ev.urlChange "w")
      = ({ (runState [Ev.mount "a" true false]) with videoUrl := "w" }, [])
    ∧ (step (runState [Ev.mount "a" true false, Ev.ready])
        (Ev.urlChange "w")).2 = [WCall.setSrc "w" hlsMime]
    ∧ (step (runState [Ev.mount "a" true false, Ev.ready])
        (Ev.urlChange "w")).1.widgetSrc = some ("w", hlsMime) :=
  set_source_guarded_by_ready _ _ _ _ (by decide) (by decide) (by decide)
    (by decide)

/-- C4: opening the modal with a source url constructs the widget with
exactly the configuration of lines 34-46 — controls true, autoplay true,
preload "auto", responsive true, fluid true, HLS overrideNative true — that
construction is the only one, and on the ready transition the wrapper
points the widget at exactly that url with MIME `application/x-mpegURL`. -/
theorem open_modal_construct_config_and_source (u : String) (q : Bool) :
    (runCalls [Ev.mount u true q, Ev.ready]).filterMap constructOpts
      = [playerOptions]
    ∧ playerOptions.controls = true
    ∧ playerOptions.autoplay = true
    ∧ playerOptions.preload = "auto"
    ∧ playerOptions.responsive = true
    ∧ playerOptions.fluid = true
    ∧ playerOptions.html5.hls.overrideNative = true
    ∧ WCall.setSrc u "application/x-mpegURL"
        ∈ runCalls [Ev.mount u true q, Ev.ready]
    ∧ (runState [Ev.mount u true q, Ev.ready]).widgetSrc
        = some (u, "application/x-mpegURL") := by
  refine ⟨?_, rfl, rfl, rfl, rfl, rfl, rfl, ?_, ?_⟩
  · cases q <;> rfl
  · cases q <;> simp [runCalls, runA, step, mountCalls, playbackRates, hlsMime]
  · cases q <;> rfl

/-- C5: at every state the Home page can reach, the number of mounted player
wrappers (live playback sessions) is at most one, and one exists exactly
when the modal is open. -/
theorem modal_gates_single_session (es : List HEv) :
    mountedPlayers (homeRun es) ≤ 1
    ∧ (mountedPlayers (homeRun es) = 1 ↔ (homeRun es).isOpen = true) := by
  cases h : (homeRun es).isOpen <;> simp [mountedPlayers, h]

/-- C6: from any open state with a live widget, the user-activated close
action invokes the externally supplied onClose callback exactly once and the
wrapper's disposal exactly once, and the disposal occurs before the
container element is removed. -/
theorem close_action_once_dispose_before_remove (s : SysState)
    (ho : s.isOpen = true) (hp : s.playerAlive = true) :
    ((closeAction s).2.count SysCall.onCloseCb = 1)
    ∧ ((closeAction s).2.count SysCall.disposeWidget = 1)
    ∧ ((closeAction s).2.indexOf SysCall.disposeWidget
        < (closeAction s).2.indexOf SysCall.removeContainer) := by
  have hc : (closeAction s).2
      = [SysCall.onCloseCb, SysCall.disposeWidget, SysCall.removeContainer] := by
    simp [closeAction, ho, hp]
  rw [hc]
  decide

theorem close_action_once_dispose_before_remove_witness :
    ((closeAction ⟨true, true⟩).2.count SysCall.onCloseCb = 1)
    ∧ ((closeAction ⟨true, true⟩).2.count SysCall.disposeWidget = 1)
    ∧ ((closeAction ⟨true, true⟩).2.indexOf SysCall.disposeWidget
        < (closeAction ⟨true, true⟩).2.indexOf SysCall.removeContainer) :=
  close_action_once_dispose_before_remove ⟨true, true⟩ rfl rfl

/-- C7 as stated is refuted: the rate controls are created by the mount
effect itself, not after the ready flag is set — after a bare mount (no
ready event yet) the rate menu items with their click listeners and the rate
button already exist while the ready flag is still false. -/
theorem controls_created_before_ready :
    WCall.createRateItem (mkRat 1 2) ∈ runCalls [Ev.mount "u" true false]
    ∧ WCall.addButton "1x" ∈ runCalls [Ev.mount "u" true false]
    ∧ (runState [Ev.mount "u" true false]).isReady = false := by
  decide

/-- C7 amended: in every well-formed run with containers present, every
rate-setting call is preceded by a construction call, so Initialize always
completes before any rate call — but the mechanism is that the controls are
wired inside the mount effect immediately after construction, not that they
are gated on the ready flag. -/
theorem set_rate_preceded_by_construct (es : List Ev)
    (hwf : wfFrom false es = true) (hp : mountsPresent es = true) :
    rateAfterConstruct false (runCalls es) = true :=
  rateAfterConstruct_runA es false false false "" none hwf hp
    (fun h => Bool.noConfusion h)

theorem set_rate_preceded_by_construct_witness :
    rateAfterConstruct false
      (runCalls [Ev.mount "u" true false, Ev.ready, Ev.clickRate 2]) = true :=
  set_rate_preceded_by_construct _ (by decide) (by decide)

/-- C8: selecting any quality label from the fixed set updates only the
stored selected-label state: the widget call list is empty — zero calls to
any bitrate or track-selection API — and the player state is returned
unchanged. -/
theorem quality_label_display_only (p : VPState) (q : QualityState)
    (label : String) (hl : label ∈ qualityLabels) :
    (setQualityLabel p q label).2 = []
    ∧ (setQualityLabel p q label).1.1 = p
    ∧ (setQualityLabel p q label).1.2.selectedLabel = label :=
  ⟨rfl, rfl, rfl⟩

theorem quality_label_display_only_witness :
    (setQualityLabel initState ⟨"auto"⟩ "1080").2 = []
    ∧ (setQualityLabel initState ⟨"auto"⟩ "1080").1.1 = initState
    ∧ (setQualityLabel initState ⟨"auto"⟩ "1080").1.2.selectedLabel = "1080" :=
  quality_label_display_only initState ⟨"auto"⟩ "1080" (by decide)

/-- C9 as stated is refuted: the wrapper registers no error handler at all,
so a widget error event during playback produces no wrapper behavior
whatsoever — in particular no logging call occurs. -/
theorem widget_error_no_logging :
    (step (runState [Ev.mount "u" true false, Ev.ready]) Ev.widgetError).2 = []
    ∧ ((step (runState [Ev.mount "u" true false, Ev.ready])
        Ev.widgetError).2.any isLogCall) = false := by
  decide

/-- C9 amended: a widget error event leaves the wrapper state untouched and
emits no call of any kind — no retry, no fallback source, no user-visible
error state, and no logging — and nothing propagates beyond the wrapper. -/
theorem widget_error_no_behavior (s : VPState) :
    step s Ev.widgetError = (s, []) := rfl

/-- C10: if the container ref is null when the mount effect runs,
initialization is a silent no-op: no call is emitted (no construction), the
player ref stays null, and since no cleanup was registered the subsequent
unmount performs no disposal either — the whole mount/unmount run emits no
call at all. -/
theorem null_container_silent_noop (u : String) (q : Bool) :
    (step initState (Ev.mount u false q)).2 = []
    ∧ (step initState (Ev.mount u false q)).1.playerAlive = false
    ∧ runCalls [Ev.mount u false q, Ev.unmount] = [] :=
  ⟨rfl, rfl, rfl⟩
